import Mathlib

/-!
Shallow embedding of the performance-dashboard core (src/app.py):
the metrics aggregation function `calculate_metrics` and the keyword
query resolver `process_query`, together with the contributor count
derived in `collect_github_data`.

Timestamps are modelled as integer seconds; Python float arithmetic on
time deltas and counts is modelled exactly over the rationals.  Python
code paths that raise (subtracting a missing `submitted_at`) are
modelled by returning `none`.
-/

namespace App

/-- Commit: an author identifier and an authored timestamp (seconds). -/
structure Commit where
  author : String
  date : Int
deriving DecidableEq

/-- PullRequest: created timestamp and merged flag. -/
structure PullRequest where
  created_at : Int
  merged : Bool
deriving DecidableEq

/-- Issue: created timestamp, optional closed timestamp (absent means open). -/
structure Issue where
  created_at : Int
  closed_at : Option Int
deriving DecidableEq

/-- Review: created timestamp and optional submitted timestamp. -/
structure Review where
  created_at : Int
  submitted_at : Option Int
deriving DecidableEq

/-- RawData: the dictionary returned by collect_github_data in src/app.py:
commits, pull_requests, issues, code_reviews, and the integer
new_contributors count (len of the author set, hence a Nat). -/
structure RawData where
  commits : List Commit
  pull_requests : List PullRequest
  issues : List Issue
  code_reviews : List Review
  new_contributors : Nat
deriving DecidableEq

/-- MetricsRecord: the five-field dictionary produced by calculate_metrics. -/
structure Metrics where
  commit_frequency : Rat
  pr_merge_rate : Rat
  avg_issue_resolution_time : Rat
  avg_review_turnaround_time : Rat
  new_contributors : Nat
deriving DecidableEq

/-- Line 47 of src/app.py: contributors is the set of commit authors;
new_contributors is its size (dedup length of the author list). -/
def distinct_authors (commits : List Commit) : Nat :=
  (commits.map (fun c => c.author)).dedup.length

/-- Lines 62 to 63 of src/app.py: commit_frequency is len(commit_dates)/30
when the commit list is nonempty, else 0. -/
def commit_frequency_calc (commits : List Commit) : Rat :=
  let commit_dates := commits.map (fun c => c.date)
  if commit_dates = [] then 0 else (commit_dates.length : Rat) / 30

/-- Lines 66 to 70 of src/app.py: merged PR count over total PR count when
the list is nonempty, else 0. -/
def pr_merge_rate_calc (prs : List PullRequest) : Rat :=
  if prs = [] then 0
  else ((prs.filter (fun pr => pr.merged)).length : Rat) / (prs.length : Rat)

/-- Lines 73 to 78 of src/app.py: filter issues with a closed_at, average
(closed_at - created_at) in hours over that filtered list, else 0. -/
def avg_issue_resolution_calc (issues : List Issue) : Rat :=
  let closed_issues := issues.filter (fun i => i.closed_at.isSome)
  if closed_issues = [] then 0
  else
    let resolution_times :=
      closed_issues.map (fun i => ((i.closed_at.getD 0 - i.created_at : Int) : Rat) / 3600)
    resolution_times.sum / (resolution_times.length : Rat)

/-- Line 82 of src/app.py: the list comprehension computing
(review.submitted_at - review.created_at) hours for EVERY review; a review
with submitted_at = None makes Python raise TypeError, modelled as none. -/
def review_times_calc : List Review → Option (List Rat)
  | [] => some []
  | r :: rest =>
    match r.submitted_at with
    | none => none
    | some s =>
      match review_times_calc rest with
      | none => none
      | some ts => some ((((s - r.created_at : Int) : Rat) / 3600) :: ts)

/-- Lines 81 to 85 of src/app.py: 0 for an empty review list, otherwise the
mean of review_times (none when that computation raises). -/
def avg_review_turnaround_calc (reviews : List Review) : Option Rat :=
  if reviews = [] then some 0
  else (review_times_calc reviews).map (fun ts => ts.sum / (ts.length : Rat))

/-- Lines 58 to 90 of src/app.py: calculate_metrics assembles the five
fields; new_contributors is copied from the input dictionary unchanged. -/
def calculate_metrics (raw : RawData) : Option Metrics :=
  match avg_review_turnaround_calc raw.code_reviews with
  | none => none
  | some t =>
    some ⟨commit_frequency_calc raw.commits,
          pr_merge_rate_calc raw.pull_requests,
          avg_issue_resolution_calc raw.issues,
          t,
          raw.new_contributors⟩

/-- Python str.lower, character by character. -/
def lowerStr (s : String) : String :=
  String.mk (s.data.map Char.toLower)

/-- Boolean test that pat is a leading segment of s. -/
def listStartsWith : List Char → List Char → Bool
  | _, [] => true
  | [], _ :: _ => false
  | c :: cs, p :: ps => c == p && listStartsWith cs ps

/-- Boolean test that pat occurs contiguously inside s. -/
def listHasSub : List Char → List Char → Bool
  | [], pat => pat.isEmpty
  | c :: cs, pat => listStartsWith (c :: cs) pat || listHasSub cs pat

/-- Python substring containment: pat in s. -/
def strContains (s pat : String) : Bool :=
  listHasSub s.data pat.data

/-- Two-digit zero-padded rendering of a Nat below 100. -/
def pad2 (n : Nat) : String :=
  if n < 10 then "0" ++ toString n else toString n

/-- Round a rational to the nearest integer, ties to even (the rounding
Python uses when formatting an exactly-representable value with .2f). -/
def round_half_even (q : Rat) : Int :=
  let f := q.floor
  let frac := q - (f : Rat)
  if frac < 1/2 then f
  else if 1/2 < frac then f + 1
  else if f % 2 = 0 then f else f + 1

/-- Python format spec .2f on an exact rational value. -/
def format2 (q : Rat) : String :=
  let n := round_half_even (q * 100)
  let a := n.natAbs
  (if n < 0 then "-" else "") ++ toString (a / 100) ++ "." ++ pad2 (a % 100)

/-- Python format spec .2% : multiply by 100, format .2f, append a percent
sign. -/
def formatPct (q : Rat) : String :=
  format2 (q * 100) ++ "%"

/-- Lines 145 to 165 of src/app.py: process_query lowercases the query and
walks the if/elif chain.  The branch for pr / pull request contains a
nested if with no else: when the query mentions pr or pull request but
neither merge nor rate, Python falls off the function and returns None,
modelled as none. -/
def process_query (query : String) (metrics : Metrics) : Option String :=
  let q := lowerStr query
  if strContains q "commit" && strContains q "frequency" then
    some ("The average daily commit frequency is "
      ++ format2 metrics.commit_frequency ++ " commits per day.")
  else if strContains q "pr" || strContains q "pull request" then
    if strContains q "merge" || strContains q "rate" then
      some ("The pull request merge rate is "
        ++ formatPct metrics.pr_merge_rate ++ ".")
    else none
  else if strContains q "issue" && (strContains q "resolution" || strContains q "time") then
    some ("The average issue resolution time is "
      ++ format2 metrics.avg_issue_resolution_time ++ " hours.")
  else if strContains q "review" && strContains q "time" then
    some ("The average code review turnaround time is "
      ++ format2 metrics.avg_review_turnaround_time ++ " hours.")
  else if strContains q "new contributors" then
    some ("The number of new contributors in the last 30 days is "
      ++ toString metrics.new_contributors ++ ".")
  else
    some ("I\x27m sorry, I couldn\x27t understand your query. Please try asking "
      ++ "about commit frequency, PR merge rate, issue resolution time, "
      ++ "review turnaround time, or new contributors.")

/-- Spec side, section 4.1 rule 3: hours between creation and closure of an
issue, when the issue has a closed timestamp. -/
def spec_issue_hours (i : Issue) : Option Rat :=
  i.closed_at.map (fun c => ((c - i.created_at : Int) : Rat) / 3600)

/-- Spec side: mean of a list of rationals, 0 for the empty list. -/
def spec_mean (l : List Rat) : Rat :=
  if l = [] then 0 else l.sum / (l.length : Rat)

/-- A metrics record with every field zero. -/
def mZero : Metrics := ⟨0, 0, 0, 0, 0⟩

/-- A metrics record whose commit_frequency is one half. -/
def m05 : Metrics := ⟨1/2, 0, 0, 0, 0⟩

/-- Raw window holding the two reviews of the spec example: one completed
in two hours and one with no submitted timestamp. -/
def rawC2 : RawData := ⟨[], [], [], [⟨0, some 7200⟩, ⟨0, none⟩], 0⟩

/-- Raw window with a single issue closed one hour BEFORE it was created. -/
def rawNeg : RawData := ⟨[], [], [⟨3600, some 0⟩], [], 0⟩

/-- Raw window with one issue closed after one hour and one open issue. -/
def rawC6 : RawData := ⟨[], [], [⟨0, some 3600⟩, ⟨0, none⟩], [], 0⟩

/-- Raw window with a single open issue and nothing else. -/
def rawNoClosed : RawData := ⟨[], [], [⟨0, none⟩], [], 0⟩

/-- Raw window with one merged and one unmerged pull request. -/
def rawC7 : RawData := ⟨[], [⟨0, true⟩, ⟨1, false⟩], [], [], 0⟩

/-- Fifteen commits by three distinct authors. -/
def commits15 : List Commit :=
  [⟨"a", 0⟩, ⟨"a", 1⟩, ⟨"a", 2⟩, ⟨"a", 3⟩, ⟨"a", 4⟩,
   ⟨"b", 5⟩, ⟨"b", 6⟩, ⟨"b", 7⟩, ⟨"b", 8⟩, ⟨"b", 9⟩,
   ⟨"c", 10⟩, ⟨"c", 11⟩, ⟨"c", 12⟩, ⟨"c", 13⟩, ⟨"c", 14⟩]

/-- Raw window with the fifteen commits and the matching contributor count. -/
def rawC8 : RawData := ⟨commits15, [], [], [], 3⟩

/-- Raw window whose supplied new_contributors count (7) disagrees with the
three distinct commit authors. -/
def rawC10 : RawData := ⟨[⟨"a", 0⟩, ⟨"b", 1⟩, ⟨"c", 2⟩], [], [], [], 7⟩

set_option maxRecDepth 10000

/-- Formatting zero with two decimals gives 0.00. -/
theorem format2_zero : format2 (0 : Rat) = "0.00" := by
  have h1 : (0 : Rat) * 100 = 0 := by norm_num
  simp only [format2, h1]
  have h2 : round_half_even 0 = 0 := by
    norm_num [round_half_even, show (0 : Rat).floor = 0 from rfl]
  rw [h2]
  decide

/-- Formatting one half with two decimals gives 0.50. -/
theorem format2_half : format2 (1/2 : Rat) = "0.50" := by
  have h1 : (1/2 : Rat) * 100 = 50 := by norm_num
  simp only [format2, h1]
  have h2 : round_half_even 50 = 50 := by
    norm_num [round_half_even, show (50 : Rat).floor = 50 from rfl]
  rw [h2]
  decide

/-- Projections of a successful calculate_metrics run onto the per-block
computations of src/app.py. -/
theorem calculate_metrics_some (raw : RawData) (m : Metrics)
    (h : calculate_metrics raw = some m) :
    m.commit_frequency = commit_frequency_calc raw.commits ∧
    m.pr_merge_rate = pr_merge_rate_calc raw.pull_requests ∧
    m.avg_issue_resolution_time = avg_issue_resolution_calc raw.issues ∧
    avg_review_turnaround_calc raw.code_reviews = some m.avg_review_turnaround_time ∧
    m.new_contributors = raw.new_contributors := by
  unfold calculate_metrics at h
  cases hrev : avg_review_turnaround_calc raw.code_reviews with
  | none => rw [hrev] at h; exact Option.noConfusion h
  | some t =>
    rw [hrev] at h
    injection h with h
    subst h
    exact ⟨rfl, rfl, rfl, rfl, rfl⟩

/-- Every entry produced by the review-time comprehension is nonnegative
when each submitted timestamp is at least its created timestamp. -/
theorem review_times_nonneg (rs : List Review) (ts : List Rat)
    (hts : review_times_calc rs = some ts)
    (hr : ∀ r ∈ rs, ∀ s, r.submitted_at = some s → r.created_at ≤ s) :
    ∀ x ∈ ts, 0 ≤ x := by
  induction rs generalizing ts with
  | nil =>
    unfold review_times_calc at hts
    injection hts with h
    subst h
    intro x hx
    exact absurd hx (List.not_mem_nil x)
  | cons r rest ih =>
    unfold review_times_calc at hts
    cases hs : r.submitted_at with
    | none => rw [hs] at hts; exact Option.noConfusion hts
    | some s =>
      rw [hs] at hts
      cases hrec : review_times_calc rest with
      | none => rw [hrec] at hts; exact Option.noConfusion hts
      | some ts2 =>
        rw [hrec] at hts
        injection hts with h
        subst h
        intro x hx
        rcases List.mem_cons.mp hx with hx | hx
        · subst hx
          have hcs : r.created_at ≤ s := hr r (List.mem_cons_self r rest) s hs
          have hnn : (0 : Rat) ≤ ((s - r.created_at : Int) : Rat) := by
            exact_mod_cast sub_nonneg.mpr hcs
          exact div_nonneg hnn (by norm_num)
        · exact ih ts2 hrec (fun r2 h2 => hr r2 (List.mem_cons_of_mem r h2)) x hx

/-- The review turnaround average is nonnegative whenever it is defined and
every review was submitted no earlier than it was created. -/
theorem avg_review_nonneg (rs : List Review) (t : Rat)
    (h : avg_review_turnaround_calc rs = some t)
    (hr : ∀ r ∈ rs, ∀ s, r.submitted_at = some s → r.created_at ≤ s) :
    0 ≤ t := by
  unfold avg_review_turnaround_calc at h
  by_cases hrs : rs = []
  · rw [if_pos hrs] at h
    injection h with h
    rw [← h]
  · rw [if_neg hrs] at h
    cases hts : review_times_calc rs with
    | none => rw [hts] at h; exact Option.noConfusion h
    | some ts =>
      rw [hts] at h
      injection h with h
      rw [← h]
      exact div_nonneg (List.sum_nonneg (review_times_nonneg rs ts hts hr))
        (Nat.cast_nonneg _)

/-- The issue resolution average is nonnegative when every closed issue was
closed no earlier than it was created. -/
theorem avg_issue_nonneg (issues : List Issue)
    (hi : ∀ i ∈ issues, ∀ c, i.closed_at = some c → i.created_at ≤ c) :
    0 ≤ avg_issue_resolution_calc issues := by
  simp only [avg_issue_resolution_calc]
  by_cases hcl : issues.filter (fun i => i.closed_at.isSome) = []
  · rw [if_pos hcl]
  · rw [if_neg hcl]
    refine div_nonneg (List.sum_nonneg ?_) (Nat.cast_nonneg _)
    intro x hx
    rcases List.mem_map.mp hx with ⟨i, hmem, rfl⟩
    rcases List.mem_filter.mp hmem with ⟨hin, hsome⟩
    rcases Option.isSome_iff_exists.mp hsome with ⟨c, hc⟩
    rw [hc]
    have hcc : i.created_at ≤ c := hi i hin c hc
    have hnn : (0 : Rat) ≤ (((some c).getD 0 - i.created_at : Int) : Rat) := by
      simp only [Option.getD_some]
      exact_mod_cast sub_nonneg.mpr hcc
    exact div_nonneg hnn (by norm_num)

/-- The mapped list over the closed-issue filter is the filterMap of the
spec-side per-issue hours. -/
theorem closed_map_eq_filterMap (issues : List Issue) :
    (issues.filter (fun i => i.closed_at.isSome)).map
        (fun i => ((i.closed_at.getD 0 - i.created_at : Int) : Rat) / 3600) =
      issues.filterMap spec_issue_hours := by
  induction issues with
  | nil => rfl
  | cons i rest ih =>
    cases hc : i.closed_at with
    | none =>
      have hfilter : (i :: rest).filter (fun j => j.closed_at.isSome) =
          rest.filter (fun j => j.closed_at.isSome) := by
        simp [List.filter_cons, hc]
      have hspec : spec_issue_hours i = none := by
        unfold spec_issue_hours; rw [hc]; rfl
      rw [List.filterMap_cons, hspec, hfilter, ih]
    | some c =>
      have hfilter : (i :: rest).filter (fun j => j.closed_at.isSome) =
          i :: rest.filter (fun j => j.closed_at.isSome) := by
        simp [List.filter_cons, hc]
      have hspec : spec_issue_hours i =
          some (((c - i.created_at : Int) : Rat) / 3600) := by
        unfold spec_issue_hours; rw [hc]; rfl
      rw [List.filterMap_cons, hspec, hfilter, List.map_cons, ih, hc]
      rfl

/-- The code's issue block computes exactly the spec-side mean over issues
that have a closed timestamp. -/
theorem avg_issue_eq_spec (issues : List Issue) :
    avg_issue_resolution_calc issues = spec_mean (issues.filterMap spec_issue_hours) := by
  rw [← closed_map_eq_filterMap issues]
  simp only [avg_issue_resolution_calc, spec_mean]
  by_cases hcl : issues.filter (fun i => i.closed_at.isSome) = []
  · simp [hcl]
  · have hmap : (issues.filter (fun i => i.closed_at.isSome)).map
        (fun i => ((i.closed_at.getD 0 - i.created_at : Int) : Rat) / 3600) ≠ [] := by
      simpa [List.map_eq_nil_iff] using hcl
    simp [hcl, hmap]

/-- C1: the claim says process_query always returns a string and that a
query matching none of the five metric rules yields the fixed fallback
help string.  The code violates this: a query containing pr (or pull
request) but neither merge nor rate enters the rule-2 branch, whose inner
if has no else, and Python falls off the function returning None — for
any metrics record. -/
theorem c1_process_query_returns_none_on_pr_only_query :
    process_query "pr" mZero = none ∧
      process_query "pr" ⟨5, 1/4, 2, 3, 9⟩ = none ∧
      process_query "tell me about widgets" mZero =
        some ("I\x27m sorry, I couldn\x27t understand your query. Please try asking "
          ++ "about commit frequency, PR merge rate, issue resolution time, "
          ++ "review turnaround time, or new contributors.") :=
  ⟨rfl, rfl, rfl⟩

/-- C2: the claim says reviews without a submitted timestamp are excluded
from the turnaround average, so the two-review example yields 2.0.  The
code never filters: it subtracts created_at from submitted_at for every
review, so a review with submitted_at = None raises TypeError (modelled
as none) instead of being excluded. -/
theorem c2_calculate_metrics_fails_on_missing_submitted :
    calculate_metrics rawC2 = none ∧
      rawC2.code_reviews = [⟨0, some 7200⟩, ⟨0, none⟩] :=
  ⟨by decide, rfl⟩

/-- C3: the claim says a query failing rule 2 in full (pr or pull request
present, but neither merge nor rate) is still evaluated against rules 3
to 6.  The code violates this: the elif captures on the pr keyword alone
and the nested if returns None, so a query that rule 3 would answer is
swallowed; the same query without pr does reach rule 3. -/
theorem c3_rule2_branch_swallows_pr_queries :
    process_query "pr issue time" mZero = none ∧
      process_query "issue time" mZero =
        some "The average issue resolution time is 0.00 hours." := by
  refine ⟨rfl, ?_⟩
  have h0 : process_query "issue time" mZero =
      some ("The average issue resolution time is " ++ format2 0 ++ " hours.") := rfl
  rw [h0, format2_zero]
  rfl

/-- C4: on a window whose four collections are empty and whose contributor
count is 0, calculate_metrics returns a record with all five fields 0 and
does not fail. -/
theorem c4_empty_window_all_zero (raw : RawData)
    (h1 : raw.commits = []) (h2 : raw.pull_requests = [])
    (h3 : raw.issues = []) (h4 : raw.code_reviews = [])
    (h5 : raw.new_contributors = 0) :
    calculate_metrics raw = some ⟨0, 0, 0, 0, 0⟩ := by
  have hraw : raw = ⟨[], [], [], [], 0⟩ := by
    cases raw
    simp_all
  rw [hraw]
  decide

/-- Witness for C4 at the concrete empty window. -/
theorem c4_witness : calculate_metrics ⟨[], [], [], [], 0⟩ = some ⟨0, 0, 0, 0, 0⟩ :=
  c4_empty_window_all_zero ⟨[], [], [], [], 0⟩ rfl rfl rfl rfl rfl

/-- C5 counterexample: the claim says no field of the returned record is
ever negative, but an issue closed one hour before its creation produces
avg_issue_resolution_time = -1. -/
theorem c5_negative_resolution_counterexample :
    ¬ (∀ raw m, calculate_metrics raw = some m → 0 ≤ m.avg_issue_resolution_time) := by
  intro h
  have hcalc : calculate_metrics rawNeg = some ⟨0, 0, -1, 0, 0⟩ := by
    norm_num [calculate_metrics, rawNeg, commit_frequency_calc, pr_merge_rate_calc,
      avg_issue_resolution_calc, avg_review_turnaround_calc, review_times_calc]
  have h2 : (0 : Rat) ≤ -1 := h rawNeg ⟨0, 0, -1, 0, 0⟩ hcalc
  norm_num at h2

/-- C5 amended: no field of a successfully returned record is negative
provided every closed issue was closed no earlier than created and every
submitted review was submitted no earlier than created; without those
hypotheses negative time deltas propagate into the averages. -/
theorem c5_nonneg_under_ordered_timestamps (raw : RawData) (m : Metrics)
    (hm : calculate_metrics raw = some m)
    (hi : ∀ i ∈ raw.issues, ∀ c, i.closed_at = some c → i.created_at ≤ c)
    (hr : ∀ r ∈ raw.code_reviews, ∀ s, r.submitted_at = some s → r.created_at ≤ s) :
    0 ≤ m.commit_frequency ∧ 0 ≤ m.pr_merge_rate ∧
      0 ≤ m.avg_issue_resolution_time ∧ 0 ≤ m.avg_review_turnaround_time ∧
      0 ≤ (m.new_contributors : Rat) := by
  obtain ⟨hcf, hpr, hai, hrt, -⟩ := calculate_metrics_some raw m hm
  refine ⟨?_, ?_, ?_, ?_, Nat.cast_nonneg _⟩
  · rw [hcf]
    simp only [commit_frequency_calc]
    split
    · exact le_refl 0
    · positivity
  · rw [hpr]
    simp only [pr_merge_rate_calc]
    split
    · exact le_refl 0
    · positivity
  · rw [hai]
    exact avg_issue_nonneg raw.issues hi
  · exact avg_review_nonneg raw.code_reviews m.avg_review_turnaround_time hrt hr

/-- Witness for the amended C5 at the empty window. -/
theorem c5_witness :
    0 ≤ mZero.commit_frequency ∧ 0 ≤ mZero.pr_merge_rate ∧
      0 ≤ mZero.avg_issue_resolution_time ∧ 0 ≤ mZero.avg_review_turnaround_time ∧
      0 ≤ (mZero.new_contributors : Rat) :=
  c5_nonneg_under_ordered_timestamps ⟨[], [], [], [], 0⟩ mZero (by decide)
    (fun i hmem => absurd hmem (List.not_mem_nil i))
    (fun r hmem => absurd hmem (List.not_mem_nil r))

/-- C6: avg_issue_resolution_time is the mean in hours of closure minus
creation over exactly the issues that have a closed timestamp; one issue
closed after an hour plus one open issue give 1, not 1/2, and no closed
issues give 0. -/
theorem c6_avg_issue_resolution_spec :
    (∀ raw m, calculate_metrics raw = some m →
        m.avg_issue_resolution_time = spec_mean (raw.issues.filterMap spec_issue_hours)) ∧
      calculate_metrics rawC6 = some ⟨0, 0, 1, 0, 0⟩ ∧
      calculate_metrics rawNoClosed = some ⟨0, 0, 0, 0, 0⟩ := by
  refine ⟨?_,
    by norm_num [calculate_metrics, rawC6, commit_frequency_calc, pr_merge_rate_calc,
      avg_issue_resolution_calc, avg_review_turnaround_calc, review_times_calc],
    by norm_num [calculate_metrics, rawNoClosed, commit_frequency_calc, pr_merge_rate_calc,
      avg_issue_resolution_calc, avg_review_turnaround_calc, review_times_calc]⟩
  intro raw m h
  rw [(calculate_metrics_some raw m h).2.2.1, avg_issue_eq_spec]

/-- Witness for C6 at the two-issue window. -/
theorem c6_witness :
    (⟨0, 0, 1, 0, 0⟩ : Metrics).avg_issue_resolution_time =
      spec_mean (rawC6.issues.filterMap spec_issue_hours) :=
  c6_avg_issue_resolution_spec.1 rawC6 ⟨0, 0, 1, 0, 0⟩
    (by norm_num [calculate_metrics, rawC6, commit_frequency_calc, pr_merge_rate_calc,
      avg_issue_resolution_calc, avg_review_turnaround_calc, review_times_calc])

/-- C7: pr_merge_rate is merged count over total count, 0 on an empty
pull-request list, and lies in [0, 1] whenever at least one pull request
exists. -/
theorem c7_pr_merge_rate_spec (raw : RawData) (m : Metrics)
    (h : calculate_metrics raw = some m) :
    (raw.pull_requests = [] → m.pr_merge_rate = 0) ∧
      (raw.pull_requests ≠ [] →
        m.pr_merge_rate =
            ((raw.pull_requests.filter (fun pr => pr.merged)).length : Rat) /
              (raw.pull_requests.length : Rat) ∧
          0 ≤ m.pr_merge_rate ∧ m.pr_merge_rate ≤ 1) := by
  have hpr := (calculate_metrics_some raw m h).2.1
  constructor
  · intro he
    rw [hpr]
    simp [pr_merge_rate_calc, he]
  · intro hne
    have hfe : m.pr_merge_rate =
        ((raw.pull_requests.filter (fun pr => pr.merged)).length : Rat) /
          (raw.pull_requests.length : Rat) := by
      rw [hpr]
      simp [pr_merge_rate_calc, hne]
    refine ⟨hfe, ?_, ?_⟩
    · rw [hfe]; positivity
    · rw [hfe]
      have hlen : (0 : Rat) < (raw.pull_requests.length : Rat) := by
        have hz : raw.pull_requests.length ≠ 0 :=
          fun hz => hne (List.length_eq_zero.mp hz)
        exact_mod_cast Nat.pos_of_ne_zero hz
      rw [div_le_one hlen]
      exact_mod_cast List.length_filter_le _ _

/-- Witness for C7 at a window with one merged and one unmerged PR. -/
theorem c7_witness :
    (⟨0, 1/2, 0, 0, 0⟩ : Metrics).pr_merge_rate =
        ((rawC7.pull_requests.filter (fun pr => pr.merged)).length : Rat) /
          (rawC7.pull_requests.length : Rat) ∧
      0 ≤ (⟨0, 1/2, 0, 0, 0⟩ : Metrics).pr_merge_rate ∧
      (⟨0, 1/2, 0, 0, 0⟩ : Metrics).pr_merge_rate ≤ 1 :=
  (c7_pr_merge_rate_spec rawC7 ⟨0, 1/2, 0, 0, 0⟩
    (by norm_num [calculate_metrics, rawC7, commit_frequency_calc, pr_merge_rate_calc,
        avg_issue_resolution_calc, avg_review_turnaround_calc, review_times_calc]; decide)).2 (by decide)

/-- C8: commit_frequency is the commit count over 30 (0 for no commits),
and when the supplied contributor count is the one collect_github_data
derives (the distinct-author count of the commits), the output field is
that distinct count; fifteen commits by three authors give 1/2 and 3. -/
theorem c8_commit_frequency_and_contributors :
    (∀ raw m, calculate_metrics raw = some m →
        m.commit_frequency = (raw.commits.length : Rat) / 30 ∧
          (raw.new_contributors = distinct_authors raw.commits →
            m.new_contributors = distinct_authors raw.commits)) ∧
      calculate_metrics rawC8 = some ⟨1/2, 0, 0, 0, 3⟩ ∧
      distinct_authors rawC8.commits = 3 := by
  refine ⟨?_,
    by norm_num [calculate_metrics, rawC8, commits15, commit_frequency_calc,
        pr_merge_rate_calc, avg_issue_resolution_calc, avg_review_turnaround_calc,
        review_times_calc]; decide,
    by decide⟩
  intro raw m h
  obtain ⟨hcf, -, -, -, hnc⟩ := calculate_metrics_some raw m h
  constructor
  · rw [hcf]
    simp only [commit_frequency_calc]
    by_cases hc : raw.commits = []
    · simp [hc]
    · simp [hc, List.map_eq_nil_iff, List.length_map]
  · intro hd
    rw [hnc, hd]

/-- Witness for C8 at the fifteen-commit window. -/
theorem c8_witness :
    (⟨1/2, 0, 0, 0, 3⟩ : Metrics).commit_frequency = (rawC8.commits.length : Rat) / 30 ∧
      (rawC8.new_contributors = distinct_authors rawC8.commits →
        (⟨1/2, 0, 0, 0, 3⟩ : Metrics).new_contributors = distinct_authors rawC8.commits) :=
  c8_commit_frequency_and_contributors.1 rawC8 ⟨1/2, 0, 0, 0, 3⟩
    (by norm_num [calculate_metrics, rawC8, commits15, commit_frequency_calc,
        pr_merge_rate_calc, avg_issue_resolution_calc, avg_review_turnaround_calc,
        review_times_calc]; decide)

/-- C9: any query containing commit and frequency case-insensitively gets
the commit-frequency sentence with the value formatted to two decimals
and the unit commits per day; with value one half the concrete query
yields a sentence containing 0.50 commits per day. -/
theorem c9_commit_frequency_query :
    (∀ query metrics, strContains (lowerStr query) "commit" = true →
        strContains (lowerStr query) "frequency" = true →
        process_query query metrics =
          some ("The average daily commit frequency is "
            ++ format2 metrics.commit_frequency ++ " commits per day.")) ∧
      process_query "What is the commit frequency?" m05 =
        some "The average daily commit frequency is 0.50 commits per day." ∧
      strContains "The average daily commit frequency is 0.50 commits per day."
          "0.50 commits per day" = true := by
  refine ⟨?_, ?_, by decide⟩
  · intro query metrics h1 h2
    simp [process_query, h1, h2]
  · have h0 : process_query "What is the commit frequency?" m05 =
        some ("The average daily commit frequency is "
          ++ format2 (1/2) ++ " commits per day.") := rfl
    rw [h0, format2_half]
    rfl

/-- Witness for C9 at the query commit frequency. -/
theorem c9_witness :
    process_query "commit frequency" m05 =
      some ("The average daily commit frequency is "
        ++ format2 m05.commit_frequency ++ " commits per day.") :=
  c9_commit_frequency_query.1 "commit frequency" m05 (by decide) (by decide)

/-- C10: the output new_contributors field is the caller-supplied count
passed through unchanged, even when it disagrees with the distinct-author
count of the commits (7 supplied versus 3 distinct authors). -/
theorem c10_new_contributors_passthrough :
    (∀ raw m, calculate_metrics raw = some m →
        m.new_contributors = raw.new_contributors) ∧
      calculate_metrics rawC10 = some ⟨1/10, 0, 0, 0, 7⟩ ∧
      distinct_authors rawC10.commits = 3 := by
  refine ⟨?_,
    by norm_num [calculate_metrics, rawC10, commit_frequency_calc, pr_merge_rate_calc,
        avg_issue_resolution_calc, avg_review_turnaround_calc, review_times_calc]; decide,
    by decide⟩
  intro raw m h
  exact (calculate_metrics_some raw m h).2.2.2.2

/-- Witness for C10 at the disagreeing window. -/
theorem c10_witness :
    (⟨1/10, 0, 0, 0, 7⟩ : Metrics).new_contributors = rawC10.new_contributors :=
  c10_new_contributors_passthrough.1 rawC10 ⟨1/10, 0, 0, 0, 7⟩
    (by norm_num [calculate_metrics, rawC10, commit_frequency_calc, pr_merge_rate_calc,
        avg_issue_resolution_calc, avg_review_turnaround_calc, review_times_calc]; decide)

end App
